import Mathlib

/-!
Shallow embedding of the Semesters MCP server tool handlers
(single-file TypeScript server) and proofs about them.

JavaScript strings are modelled by Lean `String`; `String.prototype.includes`
by `jsIncludes`; objects that the code only ever scans as JSON-serialized
text (the `activity` argument of `validateOGActivity`) are represented by
that serialized text.
-/

namespace SemestersMCP

/-- `infixOf l pat` decides whether `pat` occurs as a contiguous
sublist of `l` (the semantics of JavaScript `String.prototype.includes`
on the character lists). -/
def infixOf : List Char → List Char → Bool
  | [], pat => pat.isEmpty
  | c :: cs, pat => pat.isPrefixOf (c :: cs) || infixOf cs pat

/-- JavaScript `s.includes(pat)`: substring containment. -/
def jsIncludes (s pat : String) : Bool :=
  infixOf s.toList pat.toList

/-- JavaScript `s.toLowerCase()` (ASCII, which covers every phrase table in
the source). -/
def jsToLower (s : String) : String :=
  String.mk (s.data.map Char.toLower)

/-- Every tool handler returns a single text block
`{ content: [ { type: "text", text } ] }`; we keep just the text. -/
inductive ToolResponse where
  | text (s : String) : ToolResponse
deriving DecidableEq, Repr

/-- The `TRAUMA_INFORMED_PRINCIPLES` constant. -/
structure TraumaPrinciples where
  avoid : List String
  encourage : List String
  principles : List String
deriving DecidableEq, Repr

def TRAUMA_INFORMED_PRINCIPLES : TraumaPrinciples :=
  { avoid := ["wrong", "incorrect", "mistake", "error", "failed", "try again",
              "you should", "you need to", "that\x27s not right", "no"]
    encourage := ["great try", "let\x27s practice", "you\x27re learning", "nice work",
                  "want to try together", "your brain is growing", "every attempt helps"]
    principles := ["No failure states",
                   "Child has control",
                   "Unconditional positive regard",
                   "Multiple pathways to success",
                   "Celebrate effort over accuracy"] }

/-- The fixed secondary pressure-word list of `reviewTraumaContent`. -/
def pressureWords : List String := ["must", "should", "have to", "need to", "required"]

/-- Structured outcome of `reviewTraumaContent` (the response text renders
these fields; `context` only appears in the rendered text). -/
structure TraumaReview where
  issues : List String
  alternatives : List String
  isTraumaInformed : Bool
deriving DecidableEq, Repr

/-- Core of the `review_trauma_content` handler: scan the avoid list and the
pressure words against the lower-cased content, in source order. -/
def reviewTraumaContent (content : String) : TraumaReview :=
  let avoidIssues :=
    (TRAUMA_INFORMED_PRINCIPLES.avoid.filter
        (fun word => jsIncludes (jsToLower content) (jsToLower word))).map
      (fun word => "Contains potentially triggering word: \"" ++ word ++ "\"")
  let pressureIssues :=
    (pressureWords.filter (fun word => jsIncludes (jsToLower content) word)).map
      (fun word => "May create pressure with word: \"" ++ word ++ "\"")
  let issues := avoidIssues ++ pressureIssues
  let alternatives :=
    if issues.length > 0 then
      ["Great try! Let\x27s practice that together.",
       "You\x27re learning! Every attempt makes your brain stronger.",
       "Want to try another way?",
       "Nice work exploring that sound!"]
    else []
  { issues := issues
    alternatives := alternatives
    isTraumaInformed := issues.length == 0 }

/-- Structured outcome shared by `validateEngagementSafety` and
`reviewCodeSafety` (the response text renders these fields). -/
structure SafetyReview where
  issues : List String
  recommendations : List String
  isSafe : Bool
deriving DecidableEq, Repr

/-- The `redFlags` list of `validateEngagementSafety`. -/
def redFlags : List String :=
  ["score", "points", "leaderboard", "competition", "timer", "deadline",
   "fail", "lose", "wrong", "mistake", "try again", "beat", "win",
   "achievement", "badge", "unlock", "earn", "reward points"]

/-- The `safeAlternatives` list of `validateEngagementSafety`. -/
def safeAlternatives : List String :=
  ["progress", "growth", "discovery", "exploration", "help", "support",
   "learn", "practice", "try", "explore", "discover", "create"]

/-- Core of the `validate_engagement_safety` handler: the four rule
families in source order, then the proactive suggestions when no issue
was recorded (`context` only appears in the rendered text). -/
def validateEngagementSafety (mechanic : String) : SafetyReview :=
  let mechanicLower := jsToLower mechanic
  let redFlagIssues :=
    (redFlags.filter (fun flag => jsIncludes mechanicLower flag)).map
      (fun flag => "Contains potentially pressuring element: \"" ++ flag ++ "\"")
  let extrinsicHit := jsIncludes mechanicLower "reward" || jsIncludes mechanicLower "prize"
  let comparisonHit := jsIncludes mechanicLower "compare" || jsIncludes mechanicLower "better than"
  let timePressureHit :=
    jsIncludes mechanicLower "time" || jsIncludes mechanicLower "speed" ||
      jsIncludes mechanicLower "fast"
  let issues :=
    redFlagIssues ++
      (if extrinsicHit then
        ["Uses extrinsic rewards which may undermine intrinsic motivation"] else []) ++
      (if comparisonHit then
        ["Includes comparison which can trigger shame in struggling readers"] else []) ++
      (if timePressureHit then
        ["May create time pressure which causes stress in dyslexic learners"] else [])
  let recommendations :=
    (if extrinsicHit then
      ["Focus on intrinsic motivators: curiosity, mastery, autonomy, purpose"] else []) ++
      (if comparisonHit then
        ["Focus on individual growth and personal achievement"] else []) ++
      (if timePressureHit then
        ["Remove time elements or make them invisible/optional"] else []) ++
      (if issues.length == 0 then
        ["Consider adding story elements that create emotional investment",
         "Ensure child has agency and control over the experience",
         "Connect to helping others or solving meaningful problems"] else [])
  { issues := issues
    recommendations := recommendations
    isSafe := issues.length == 0 }

/-- Core of the `review_code_safety` handler: three case-sensitive trigger
checks on the raw code string, then the positive-reinforcement check that
only adds a recommendation (`language` only appears in the rendered text). -/
def reviewCodeSafety (code : String) : SafetyReview :=
  let failureHit :=
    jsIncludes code "fail" || jsIncludes code "error" || jsIncludes code "wrong"
  let timePressureHit := jsIncludes code "timeout" || jsIncludes code "time limit"
  let accessibilityHit := jsIncludes code "onClick" && !(jsIncludes code "aria-label")
  let hasPositiveReinforcement :=
    jsIncludes code "celebrate" || jsIncludes code "great" || jsIncludes code "nice work"
  let issues :=
    (if failureHit then
      ["Code may contain failure states or negative language"] else []) ++
      (if timePressureHit then ["Time pressure detected - may cause stress"] else []) ++
      (if accessibilityHit then
        ["Interactive elements may lack accessibility labels"] else [])
  let recommendations :=
    (if failureHit then
      ["Implement positive feedback loops instead of failure states"] else []) ++
      (if timePressureHit then
        ["Remove time limits or make them optional/invisible"] else []) ++
      (if accessibilityHit then
        ["Add aria-label attributes to all interactive elements"] else []) ++
      (if !hasPositiveReinforcement then
        ["Add positive reinforcement and celebration for user actions"] else [])
  { issues := issues
    recommendations := recommendations
    isSafe := issues.length == 0 }

/-- One level record of the `OG_CURRICULUM` constant. -/
structure OGLevel where
  phonemes : List String
  words : Option (List String)
  focus : String
  masteryRequirement : Nat
deriving DecidableEq, Repr

/-- `Object.values(OG_CURRICULUM)` in insertion order (level1, level2, level3). -/
def OG_CURRICULUM : List OGLevel :=
  [{ phonemes := ["a", "b", "c", "d", "e", "f", "g", "h", "i"]
     words := none
     focus := "Single letter sounds"
     masteryRequirement := 90 },
   { phonemes := ["j", "k", "l", "m", "n", "o", "p", "q", "r"]
     words := some ["cat", "dog", "run", "big", "hat"]
     focus := "CVC words"
     masteryRequirement := 85 },
   { phonemes := ["s", "t", "u", "v", "w", "x", "y", "z"]
     words := some ["bath", "ship", "thin"]
     focus := "Consonant digraphs"
     masteryRequirement := 85 }]

/-- JavaScript array indexing `arr[i]` with a (possibly negative) integer
index: `undefined` outside the array bounds. -/
def jsIndex (l : List α) (i : Int) : Option α :=
  if i < 0 then none else l.get? i.toNat

/-- The local `modalities` list of `validateOGActivity`. -/
def ogModalities : List String := ["visual", "auditory", "kinesthetic", "tactile"]

/-- The `validation` record built by `validateOGActivity`. -/
structure OGValidation where
  isSequential : Bool
  isMultisensory : Bool
  hasPhonemesFocus : Bool
  meetsLevel : Bool
  issues : List String
  recommendations : List String
deriving DecidableEq, Repr

/-- Core validation of `validate_og_activity`. The activity object is
represented by its JSON-serialized text `activityJson` (the code only reads
the activity through `JSON.stringify(activity).toLowerCase()`). The source
guard `if (levelData.phonemes)` is always truthy (every level carries a
non-empty phoneme array), so the phoneme check runs unconditionally. -/
def ogValidation (activityJson : String) (targetLevel : Int) (levelData : OGLevel) :
    OGValidation :=
  let activityString := jsToLower activityJson
  let modalityCount := (ogModalities.filter (fun m => jsIncludes activityString m)).length
  let isMultisensory := decide (2 ≤ modalityCount)
  let hasPhonemesFocus :=
    levelData.phonemes.any (fun p => jsIncludes activityString (jsToLower p))
  { isSequential := true
    isMultisensory := isMultisensory
    hasPhonemesFocus := hasPhonemesFocus
    meetsLevel := isMultisensory && hasPhonemesFocus
    issues :=
      (if !isMultisensory then
        ["Activity should include multiple sensory modalities"] else []) ++
        (if !hasPhonemesFocus then
          ["Activity should focus on level " ++ toString targetLevel ++ " phonemes: " ++
            String.intercalate ", " levelData.phonemes] else [])
    recommendations :=
      if !isMultisensory then ["Add visual, auditory, and kinesthetic elements"] else [] }

/-- Render the success-branch report text of `validateOGActivity`. -/
def ogReportText (targetLevel : Int) (levelData : OGLevel) (v : OGValidation) : String :=
  "ORTON-GILLINGHAM ACTIVITY VALIDATION\n\nTarget Level: " ++ toString targetLevel ++
    " - " ++ levelData.focus ++ "\n\n" ++
    (if v.meetsLevel then "✅ OG COMPLIANT" else "❌ NEEDS IMPROVEMENT") ++
    "\n\nValidation Results:\n- Sequential: " ++ (if v.isSequential then "✅" else "❌") ++
    "\n- Multisensory: " ++ (if v.isMultisensory then "✅" else "❌") ++
    "\n- Phoneme Focus: " ++ (if v.hasPhonemesFocus then "✅" else "❌") ++ "\n\n" ++
    (if v.issues.length > 0 then
      "Issues:\n" ++ String.intercalate "\n" (v.issues.map (fun i => "- " ++ i)) ++
        "\n\nRecommendations:\n" ++
        String.intercalate "\n" (v.recommendations.map (fun r => "- " ++ r))
    else "Activity meets OG standards!")

/-- The `validate_og_activity` handler: resolve the 1-based level against
`Object.values(OG_CURRICULUM)`; a falsy lookup yields the invalid-level text. -/
def validateOGActivity (activityJson : String) (targetLevel : Int) : ToolResponse :=
  match jsIndex OG_CURRICULUM (targetLevel - 1) with
  | none =>
      ToolResponse.text
        ("❌ Invalid OG level: " ++ toString targetLevel ++ ". Must be 1-3.")
  | some levelData =>
      ToolResponse.text
        (ogReportText targetLevel levelData (ogValidation activityJson targetLevel levelData))

/-- The always-present `assessment` sub-tree of `generatePhonemeActivity`. -/
structure AssessmentComp where
  masteryIndicators : List String
  practiceStructure : String
deriving DecidableEq, Repr

/-- The `activity.components` object of `generatePhonemeActivity`: one
optional sub-tree per modality (as named description pairs, in source
field order) plus the always-present assessment sub-tree. -/
structure PhonemeComponents where
  visual : Option (List (String × String))
  auditory : Option (List (String × String))
  kinesthetic : Option (List (String × String))
  tactile : Option (List (String × String))
  assessment : AssessmentComp
deriving DecidableEq, Repr

/-- The `activity` object of `generatePhonemeActivity`. -/
structure PhonemeActivity where
  phoneme : String
  type : String
  components : PhonemeComponents
deriving DecidableEq, Repr

/-- JavaScript `s.toUpperCase()` (ASCII). -/
def jsToUpper (s : String) : String :=
  String.mk (s.data.map Char.toUpper)

/-- The `generate_phoneme_activity` handler's activity construction. -/
def generatePhonemeActivity (phoneme : String) (modalities : List String) :
    PhonemeActivity :=
  { phoneme := phoneme
    type := "multisensory_practice"
    components :=
      { visual :=
          if modalities.contains "visual" then
            some [("letterDisplay",
                    "Large, clear display of letter \"" ++ jsToUpper phoneme ++ "\""),
                  ("visualization", "Child sees the letter in high contrast"),
                  ("animation", "Letter appears with gentle fade-in effect")]
          else none
        auditory :=
          if modalities.contains "auditory" then
            some [("phonemeSound", "Clear pronunciation of /" ++ phoneme ++ "/ sound"),
                  ("repetition", "Sound plays automatically when letter appears"),
                  ("childRepeat", "Child encouraged to repeat the sound aloud")]
          else none
        kinesthetic :=
          if modalities.contains "kinesthetic" then
            some [("letterTracing", "Child traces letter shape with finger on screen"),
                  ("airWriting", "Child \"writes\" letter in the air"),
                  ("bodyMovement", "Associate letter with body movement or gesture")]
          else none
        tactile :=
          if modalities.contains "tactile" then
            some [("textureAssociation", "Connect letter with tactile experience"),
                  ("hapticFeedback", "Device vibration when letter is traced correctly"),
                  ("physicalProps",
                    "Optional: textured letter cards for real-world practice")]
          else none
        assessment :=
          { masteryIndicators :=
              ["Automatic recognition (< 2 seconds)",
               "Correct sound production",
               "Proper letter formation"]
            practiceStructure := "Present → Model → Practice → Assess → Celebrate" } } }

/-- One entry of the `protocols` table of `generateStressProtocol`. -/
structure Protocol where
  detection : List String
  response : List String
  code : String
deriving DecidableEq, Repr

/-- The nested `protocols` table: trigger type → severity → protocol.
Only `behavioral` and `physiological` are populated. -/
def protocols : List (String × List (String × Protocol)) :=
  [("behavioral",
    [("mild",
      { detection := ["Slower response times", "Repeated help requests", "Shorter responses"]
        response := ["Offer encouragement", "Provide gentle hints", "Show progress made"]
        code := "\nif (responseTime > averageResponseTime * 1.5) \x7b\n  showEncouragement(\"You\x27re thinking carefully - that\x27s great!\");\n  offerHint(currentChallenge);\n\x7d" }),
     ("moderate",
      { detection := ["Multiple wrong attempts", "Requesting to skip", "Visible frustration cues"]
        response := ["Switch to easier content", "Offer break", "Provide comfort"]
        code := "\nif (consecutiveStruggles >= 3) \x7b\n  switchToComfortMode();\n  showMessage(\"Let\x27s try something fun together!\");\n  offerBreak();\n\x7d" }),
     ("high",
      { detection := ["Attempting to quit", "Silence after prompts", "Stress behaviors"]
        response := ["Immediate comfort mode", "Breathing exercises", "End session positively"]
        code := "\nif (detectedHighStress()) \x7b\n  immediateComfortMode();\n  showBreathingExercise();\n  celebrateWhatWasAccomplished();\n\x7d" })]),
   ("physiological",
    [("mild",
      { detection := ["HRV decrease 10-20%", "Heart rate increase 10-15%"]
        response := ["Gentle pacing adjustment", "Calming visual cues"]
        code := "\nif (hrv < baseline * 0.8) \x7b\n  adjustPacing(\"slower\");\n  showCalmingVisuals();\n\x7d" }),
     ("moderate",
      { detection := ["HRV decrease 20-30%", "Heart rate increase 15-25%"]
        response := ["Pause activity", "Breathing guidance", "Comfort content"]
        code := "\nif (heartRate > baseline * 1.2) \x7b\n  pauseCurrentActivity();\n  startBreathingGuide();\n  showComfortCharacter();\n\x7d" }),
     ("high",
      { detection := ["HRV decrease >30%", "Heart rate increase >25%"]
        response := ["Immediate stop", "Full comfort mode", "Recovery focus"]
        code := "\nif (stressLevel === \"CRITICAL\") \x7b\n  stopAllActivities();\n  activateFullComfortMode();\n  focusOnRecovery();\n  notifyParent();\n\x7d" })])]

/-- `protocols[triggerType]?.[severity]`. -/
def protocolLookup (triggerType severity : String) : Option Protocol :=
  (protocols.lookup triggerType).bind (fun bySeverity => bySeverity.lookup severity)

/-- The invalid-parameters text of `generateStressProtocol`. -/
def invalidProtocolText : String :=
  "❌ Invalid protocol parameters. TriggerType must be \x27behavioral\x27 or \x27physiological\x27, severity must be \x27mild\x27, \x27moderate\x27, or \x27high\x27."

/-- The `generate_stress_protocol` handler. -/
def generateStressProtocol (triggerType severity : String) : ToolResponse :=
  match protocolLookup triggerType severity with
  | none => ToolResponse.text invalidProtocolText
  | some protocol =>
      ToolResponse.text
        ("STRESS DETECTION & RESPONSE PROTOCOL\n\nTrigger: " ++ triggerType ++ " (" ++
          severity ++ ")\n\nDetection Indicators:\n" ++
          String.intercalate "\n" (protocol.detection.map (fun d => "- " ++ d)) ++
          "\n\nResponse Actions:\n" ++
          String.intercalate "\n" (protocol.response.map (fun r => "- " ++ r)) ++
          "\n\nImplementation Code:\n```typescript" ++ protocol.code ++
          "\n```\n\nKey Principles:\n- Child safety is paramount\n- Recovery before continuation\n- Positive framing of all interventions\n- Parent notification for high-stress events\n- Learning from stress patterns to prevent future episodes")

/-- One entry of the `themes` table of `generateEngagementActivity`. -/
structure ThemeDescriptor where
  setting : String
  character : String
  motivation : String
  language : String
deriving DecidableEq, Repr

/-- The `themes` table: theme tag → narrative record. -/
def themes : List (String × ThemeDescriptor) :=
  [("dragons",
    { setting := "Ancient dragon linguistics academy"
      character := "Dragon language expert"
      motivation := "Decode ancient dragon communication patterns"
      language := "mystical, adventurous" }),
   ("space",
    { setting := "Deep space communication center"
      character := "Alien linguistics specialist"
      motivation := "Establish first contact through sound patterns"
      language := "scientific, exploratory" }),
   ("magic",
    { setting := "Academy of magical linguistics"
      character := "Spell-sound researcher"
      motivation := "Master sound frequencies for spell casting"
      language := "mystical, scholarly" }),
   ("animals",
    { setting := "Wildlife communication research station"
      character := "Animal language expert"
      motivation := "Decode animal communication systems"
      language := "naturalistic, caring" }),
   ("adventure",
    { setting := "Remote expedition base camp"
      character := "Expedition leader"
      motivation := "Navigate using ancient symbol systems"
      language := "adventurous but mature" }),
   ("mystery",
    { setting := "International detective agency"
      character := "Senior investigator partner"
      motivation := "Crack coded messages in ongoing cases"
      language := "professional, investigative" })]

/-- `themes[theme]`: `undefined` outside the six theme tags. -/
def themeLookup (theme : String) : Option ThemeDescriptor :=
  themes.lookup theme

/-- The complexity tag of `generateEngagementActivity`:
`stressLevel === 'high' ? 'simple' : stressLevel === 'medium' ? 'moderate' : 'rich'`. -/
def complexityOf (stressLevel : String) : String :=
  if stressLevel = "high" then "simple"
  else if stressLevel = "medium" then "moderate"
  else "rich"

/-- The color-scheme record of `generateDyslexiaUI.getColorScheme`. -/
structure ColorScheme where
  bg : String
  border : String
  text : String
deriving DecidableEq, Repr

/-- The local `getColorScheme` of `generateDyslexiaUI`: a switch over the
intent with a default branch (the `primary` green scheme). -/
def getColorScheme (intent : String) : ColorScheme :=
  if intent = "comfort" then
    { bg := "bg-pink-100", border := "border-pink-200", text := "text-pink-900" }
  else if intent = "celebration" then
    { bg := "bg-blue-100", border := "border-blue-200", text := "text-blue-900" }
  else if intent = "secondary" then
    { bg := "bg-gray-100", border := "border-gray-200", text := "text-gray-900" }
  else
    { bg := "bg-green-100", border := "border-green-200", text := "text-green-900" }

/-- JavaScript `s.replace(pat, rep)` with a string pattern: replace the
first occurrence only. -/
def replaceFirstAux (rep : List Char) : List Char → List Char → List Char
  | [], pat => if pat.isEmpty then rep else []
  | c :: cs, pat =>
      if pat.isPrefixOf (c :: cs) then rep ++ (c :: cs).drop pat.length
      else c :: replaceFirstAux rep cs pat

/-- JavaScript `s.replace(pat, rep)` on strings. -/
def jsReplaceFirst (s pat rep : String) : String :=
  String.mk (replaceFirstAux rep.data s.data pat.data)

/-- The `component` markup of `generateDyslexiaUI`: a switch over
`componentType` with no default branch, so the initial empty string
survives for every other component type. -/
def dyslexiaComponent (componentType content : String) (colors : ColorScheme) : String :=
  if componentType = "button" then
    "\n<button \n  className=\"\n    font-[\x27OpenDyslexic,Verdana,Arial,sans-serif\x27] \n    text-xl px-8 py-4 rounded-lg\n    " ++
      colors.bg ++ " hover:" ++ jsReplaceFirst colors.bg "100" "200" ++ "\n    " ++
      colors.border ++ " border-2\n    " ++ colors.text ++
      "\n    transition-colors duration-200\n    focus:outline-none focus:ring-4 focus:ring-opacity-50\n    min-h-[60px] min-w-[120px]\n    tracking-wide\n  \"\n  aria-label=\"" ++
      content ++ "\"\n>\n  " ++ content ++ "\n</button>"
  else if componentType = "text" then
    "\n<p \n  className=\"\n    font-[\x27OpenDyslexic,Verdana,Arial,sans-serif\x27]\n    text-lg leading-relaxed tracking-wide\n    " ++
      colors.text ++ "\n    max-w-prose\n  \"\n>\n  " ++ content ++ "\n</p>"
  else if componentType = "input" then
    "\n<input\n  className=\"\n    font-[\x27OpenDyslexic,Verdana,Arial,sans-serif\x27]\n    text-lg px-4 py-3 rounded-lg\n    border-2 " ++
      colors.border ++
      "\n    focus:border-blue-300 focus:ring-2 focus:ring-blue-200\n    bg-cream-50 min-h-[50px]\n    tracking-wide\n  \"\n  placeholder=\"" ++
      content ++ "\"\n  aria-label=\"" ++ content ++ "\"\n/>"
  else if componentType = "card" then
    "\n<div \n  className=\"\n    " ++ colors.bg ++ " " ++ colors.border ++
      " border-2 rounded-lg\n    p-6 shadow-sm\n    font-[\x27OpenDyslexic,Verdana,Arial,sans-serif\x27]\n  \"\n>\n  <div className=\"text-lg " ++
      colors.text ++ " leading-relaxed tracking-wide\">\n    " ++ content ++
      "\n  </div>\n</div>"
  else ""

/-- The `generate_dyslexia_ui` handler (the source defaults `intent` to
`"primary"` when absent; callers pass the resolved value here). -/
def generateDyslexiaUI (componentType content intent : String) : ToolResponse :=
  ToolResponse.text
    ("Generated dyslexia-friendly " ++ componentType ++ " component:\n\n" ++
      dyslexiaComponent componentType content (getColorScheme intent) ++
      "\n\nFeatures:\n- OpenDyslexic font with fallbacks\n- High contrast colors\n- Large touch targets (min 44px)\n- Generous spacing and padding\n- Proper ARIA labels\n- Focus indicators")

/-! ### Helper lemmas -/

theorem length_beq_zero_eq_isEmpty (l : List α) : (l.length == 0) = l.isEmpty := by
  cases l <;> rfl

theorem length_beq_zero_eq_false_of_mem {l : List α} {a : α} (h : a ∈ l) :
    (l.length == 0) = false := by
  cases l with
  | nil => cases h
  | cons b bs => rfl

end SemestersMCP

open SemestersMCP

/-- C1 (counterexample): the content `"wrong"` contains the avoid phrase
`wrong`, but the issue recorded quotes the phrase with double quotes, so the
single-quoted message the claim requires is absent from the issues list. -/
theorem reviewTraumaContent_single_quote_counterexample :
    "wrong" ∈ TRAUMA_INFORMED_PRINCIPLES.avoid ∧
      jsIncludes (jsToLower "wrong") (jsToLower "wrong") = true ∧
      (reviewTraumaContent "wrong").isTraumaInformed = false ∧
      "Contains potentially triggering word: \x27wrong\x27" ∉
        (reviewTraumaContent "wrong").issues := by
  refine ⟨by decide, by decide, by decide, by decide⟩

/-- C1 (amended): for every content string, any avoid phrase contained
case-insensitively in the content forces `compliant = false` and puts the
issue `Contains potentially triggering word: "<phrase>"` (double-quoted
phrase) in the issues list; content containing no avoid phrase and no
pressure word yields `compliant = true` with an empty issues list. -/
theorem reviewTraumaContent_soundness (content : String) :
    (∀ word ∈ TRAUMA_INFORMED_PRINCIPLES.avoid,
        jsIncludes (jsToLower content) (jsToLower word) = true →
        (reviewTraumaContent content).isTraumaInformed = false ∧
          ("Contains potentially triggering word: \"" ++ word ++ "\"") ∈
            (reviewTraumaContent content).issues) ∧
      ((∀ word ∈ TRAUMA_INFORMED_PRINCIPLES.avoid,
          jsIncludes (jsToLower content) (jsToLower word) = false) →
        (∀ word ∈ pressureWords, jsIncludes (jsToLower content) word = false) →
        (reviewTraumaContent content).isTraumaInformed = true ∧
          (reviewTraumaContent content).issues = []) := by
  have hiss : (reviewTraumaContent content).issues =
      ((TRAUMA_INFORMED_PRINCIPLES.avoid.filter
          (fun word => jsIncludes (jsToLower content) (jsToLower word))).map
        (fun word => "Contains potentially triggering word: \"" ++ word ++ "\"")) ++
        ((pressureWords.filter (fun word => jsIncludes (jsToLower content) word)).map
          (fun word => "May create pressure with word: \"" ++ word ++ "\"")) := rfl
  have hflag : (reviewTraumaContent content).isTraumaInformed =
      ((reviewTraumaContent content).issues.length == 0) := rfl
  constructor
  · intro word hw hmatch
    have hmem : ("Contains potentially triggering word: \"" ++ word ++ "\"") ∈
        (reviewTraumaContent content).issues := by
      rw [hiss]
      exact List.mem_append_left _
        (List.mem_map.2 ⟨word, List.mem_filter.2 ⟨hw, hmatch⟩, rfl⟩)
    exact ⟨hflag.trans (length_beq_zero_eq_false_of_mem hmem), hmem⟩
  · intro havoid hpressure
    have h1 : TRAUMA_INFORMED_PRINCIPLES.avoid.filter
        (fun word => jsIncludes (jsToLower content) (jsToLower word)) = [] := by
      rw [List.filter_eq_nil_iff]
      intro a ha
      simp [havoid a ha]
    have h2 : pressureWords.filter
        (fun word => jsIncludes (jsToLower content) word) = [] := by
      rw [List.filter_eq_nil_iff]
      intro a ha
      simp [hpressure a ha]
    have hnil : (reviewTraumaContent content).issues = [] := by
      rw [hiss, h1, h2]
      rfl
    refine ⟨?_, hnil⟩
    rw [hflag, hnil]
    rfl

/-- C1 (witness): instantiating the soundness theorem at the content
`"wrong"` and the avoid phrase `"wrong"`. -/
theorem reviewTraumaContent_soundness_witness :
    (reviewTraumaContent "wrong").isTraumaInformed = false ∧
      ("Contains potentially triggering word: \"" ++ "wrong" ++ "\"") ∈
        (reviewTraumaContent "wrong").issues :=
  (reviewTraumaContent_soundness "wrong").1 "wrong" (by decide) (by decide)

/-- C6: in each of the three validation operations the compliant/safe flag
is true exactly when the issues list of that call is empty. -/
theorem validationResult_invariant (content mechanic code : String) :
    (reviewTraumaContent content).isTraumaInformed =
        (reviewTraumaContent content).issues.isEmpty ∧
      (validateEngagementSafety mechanic).isSafe =
        (validateEngagementSafety mechanic).issues.isEmpty ∧
      (reviewCodeSafety code).isSafe = (reviewCodeSafety code).issues.isEmpty :=
  ⟨length_beq_zero_eq_isEmpty _, length_beq_zero_eq_isEmpty _,
    length_beq_zero_eq_isEmpty _⟩

/-- C2 (counterexample): the mechanic `"badge"` matches the red-flag family
(issue recorded), yet the result carries no recommendation at all, so the
red-flag family does not contribute a recommendation on match. -/
theorem validateEngagementSafety_redflag_no_rec :
    "badge" ∈ redFlags ∧
      jsIncludes (jsToLower "badge") "badge" = true ∧
      (validateEngagementSafety "badge").issues =
        ["Contains potentially pressuring element: \"badge\""] ∧
      (validateEngagementSafety "badge").recommendations = [] := by
  refine ⟨by decide, by decide, by decide, by decide⟩

/-- C2 (amended): the four rule families are matched as substrings of the
lower-cased mechanic; the red-flag family contributes one issue per matched
flag (and no recommendation of its own), while the extrinsic-reward,
comparison and time-pressure families each contribute their own issue and
their own recommendation on match; with zero issues across all families the
result instead carries exactly the three proactive positive-design
suggestions as recommendations. -/
theorem validateEngagementSafety_rule_families (mechanic : String) :
    (∀ flag ∈ redFlags, jsIncludes (jsToLower mechanic) flag = true →
        ("Contains potentially pressuring element: \"" ++ flag ++ "\"") ∈
          (validateEngagementSafety mechanic).issues) ∧
      ((jsIncludes (jsToLower mechanic) "reward" ||
            jsIncludes (jsToLower mechanic) "prize") = true →
        "Uses extrinsic rewards which may undermine intrinsic motivation" ∈
            (validateEngagementSafety mechanic).issues ∧
          "Focus on intrinsic motivators: curiosity, mastery, autonomy, purpose" ∈
            (validateEngagementSafety mechanic).recommendations) ∧
      ((jsIncludes (jsToLower mechanic) "compare" ||
            jsIncludes (jsToLower mechanic) "better than") = true →
        "Includes comparison which can trigger shame in struggling readers" ∈
            (validateEngagementSafety mechanic).issues ∧
          "Focus on individual growth and personal achievement" ∈
            (validateEngagementSafety mechanic).recommendations) ∧
      ((jsIncludes (jsToLower mechanic) "time" ||
            jsIncludes (jsToLower mechanic) "speed" ||
            jsIncludes (jsToLower mechanic) "fast") = true →
        "May create time pressure which causes stress in dyslexic learners" ∈
            (validateEngagementSafety mechanic).issues ∧
          "Remove time elements or make them invisible/optional" ∈
            (validateEngagementSafety mechanic).recommendations) ∧
      ((validateEngagementSafety mechanic).issues = [] →
        (validateEngagementSafety mechanic).recommendations =
          ["Consider adding story elements that create emotional investment",
           "Ensure child has agency and control over the experience",
           "Connect to helping others or solving meaningful problems"]) := by
  dsimp only [validateEngagementSafety]
  refine ⟨?_, ?_, ?_, ?_, ?_⟩
  · intro flag hf hmatch
    exact List.mem_append_left _ (List.mem_append_left _ (List.mem_append_left _
      (List.mem_map.2 ⟨flag, List.mem_filter.2 ⟨hf, hmatch⟩, rfl⟩)))
  · intro hb
    constructor
    · simp [List.mem_append, hb]
    · simp [List.mem_append, hb]
  · intro hb
    constructor
    · simp [List.mem_append, hb]
    · simp [List.mem_append, hb]
  · intro hb
    constructor
    · simp [List.mem_append, hb]
    · simp [List.mem_append, hb]
  · intro h
    cases hE : (jsIncludes (jsToLower mechanic) "reward" ||
        jsIncludes (jsToLower mechanic) "prize") with
    | true => simp [hE] at h
    | false =>
      cases hC : (jsIncludes (jsToLower mechanic) "compare" ||
          jsIncludes (jsToLower mechanic) "better than") with
      | true => simp [hE, hC] at h
      | false =>
        cases hT : (jsIncludes (jsToLower mechanic) "time" ||
            jsIncludes (jsToLower mechanic) "speed" ||
            jsIncludes (jsToLower mechanic) "fast") with
        | true => simp [hE, hC, hT] at h
        | false =>
          simp only [hE, hC, hT] at h ⊢
          simp at h
          simp
          exact h

/-- C2 (witness): instantiating the rule-family theorem at the mechanic
`"reward"`, which matches the extrinsic-reward family. -/
theorem validateEngagementSafety_rule_families_witness :
    "Uses extrinsic rewards which may undermine intrinsic motivation" ∈
        (validateEngagementSafety "reward").issues ∧
      "Focus on intrinsic motivators: curiosity, mastery, autonomy, purpose" ∈
        (validateEngagementSafety "reward").recommendations :=
  (validateEngagementSafety_rule_families "reward").2.1 (by decide)

/-- C3: every (triggerType, severity) pair in
{behavioral, physiological} × {mild, moderate, high} resolves to a populated
protocol with non-empty detection and response sequences (and the handler
does not answer with the invalid-parameters text there), while
triggerType = "performance" with any severity yields the explicit
invalid-parameters text response. -/
theorem generateStressProtocol_coverage :
    (∀ t ∈ ["behavioral", "physiological"], ∀ s ∈ ["mild", "moderate", "high"],
        ∃ p, protocolLookup t s = some p ∧ p.detection ≠ [] ∧ p.response ≠ [] ∧
          generateStressProtocol t s ≠ ToolResponse.text invalidProtocolText) ∧
      ∀ s : String, generateStressProtocol "performance" s =
        ToolResponse.text invalidProtocolText := by
  constructor
  · intro t ht s hs
    fin_cases ht <;> fin_cases hs <;> exact ⟨_, rfl, by decide, by decide, by decide⟩
  · intro s
    rfl

/-- C3 (witness): instantiating the coverage theorem at
(physiological, high) and at (performance, mild). -/
theorem generateStressProtocol_coverage_witness :
    (∃ p, protocolLookup "physiological" "high" = some p ∧
        p.detection ≠ [] ∧ p.response ≠ [] ∧
        generateStressProtocol "physiological" "high" ≠
          ToolResponse.text invalidProtocolText) ∧
      generateStressProtocol "performance" "mild" =
        ToolResponse.text invalidProtocolText :=
  ⟨generateStressProtocol_coverage.1 "physiological" (by decide) "high" (by decide),
    generateStressProtocol_coverage.2 "mild"⟩

/-- C4: for every activity (represented by its JSON-serialized text) and
every in-range target level, `isMultisensory` holds iff at least two of the
four modality names occur as substrings of the lower-cased activity text,
`hasPhonemesFocus` holds iff some phoneme of the resolved level occurs
there, and `meetsLevel` is their conjunction. -/
theorem validateOGActivity_criteria (activityJson : String) (targetLevel : Int)
    (levelData : OGLevel)
    (_hlevel : jsIndex OG_CURRICULUM (targetLevel - 1) = some levelData) :
    ((ogValidation activityJson targetLevel levelData).isMultisensory = true ↔
        2 ≤ (ogModalities.filter
            (fun m => jsIncludes (jsToLower activityJson) m)).length) ∧
      ((ogValidation activityJson targetLevel levelData).hasPhonemesFocus = true ↔
        ∃ p ∈ levelData.phonemes,
          jsIncludes (jsToLower activityJson) (jsToLower p) = true) ∧
      (ogValidation activityJson targetLevel levelData).meetsLevel =
        ((ogValidation activityJson targetLevel levelData).isMultisensory &&
          (ogValidation activityJson targetLevel levelData).hasPhonemesFocus) := by
  refine ⟨?_, ?_, rfl⟩
  · exact decide_eq_true_iff
  · exact List.any_eq_true

/-- C4 (witness): instantiating the criteria theorem at level 1 and an
activity text mentioning two modalities and a level-1 phoneme. -/
theorem validateOGActivity_criteria_witness :
    ((ogValidation "visual and auditory letter a practice" 1
          { phonemes := ["a", "b", "c", "d", "e", "f", "g", "h", "i"],
            words := none, focus := "Single letter sounds",
            masteryRequirement := 90 }).isMultisensory = true ↔
        2 ≤ (ogModalities.filter
            (fun m =>
              jsIncludes (jsToLower "visual and auditory letter a practice") m)).length) ∧
      ((ogValidation "visual and auditory letter a practice" 1
          { phonemes := ["a", "b", "c", "d", "e", "f", "g", "h", "i"],
            words := none, focus := "Single letter sounds",
            masteryRequirement := 90 }).hasPhonemesFocus = true ↔
        ∃ p ∈ (["a", "b", "c", "d", "e", "f", "g", "h", "i"] : List String),
          jsIncludes (jsToLower "visual and auditory letter a practice")
            (jsToLower p) = true) ∧
      (ogValidation "visual and auditory letter a practice" 1
          { phonemes := ["a", "b", "c", "d", "e", "f", "g", "h", "i"],
            words := none, focus := "Single letter sounds",
            masteryRequirement := 90 }).meetsLevel =
        ((ogValidation "visual and auditory letter a practice" 1
            { phonemes := ["a", "b", "c", "d", "e", "f", "g", "h", "i"],
              words := none, focus := "Single letter sounds",
              masteryRequirement := 90 }).isMultisensory &&
          (ogValidation "visual and auditory letter a practice" 1
              { phonemes := ["a", "b", "c", "d", "e", "f", "g", "h", "i"],
                words := none, focus := "Single letter sounds",
                masteryRequirement := 90 }).hasPhonemesFocus) :=
  validateOGActivity_criteria "visual and auditory letter a practice" 1 _ (by decide)

/-- C5: any target level outside 1..3 makes `validate_og_activity` return
the normal single-text invalid-level response stating the valid range
(a total function of its inputs, not an exception). -/
theorem validateOGActivity_invalid_level (activityJson : String) (targetLevel : Int)
    (h : targetLevel < 1 ∨ 3 < targetLevel) :
    validateOGActivity activityJson targetLevel =
      ToolResponse.text
        ("❌ Invalid OG level: " ++ toString targetLevel ++ ". Must be 1-3.") := by
  have hnone : jsIndex OG_CURRICULUM (targetLevel - 1) = none := by
    unfold jsIndex
    rcases h with h | h
    · rw [if_pos (by omega)]
    · rw [if_neg (by omega)]
      exact List.get?_eq_none.2 (by simp [OG_CURRICULUM]; omega)
  unfold validateOGActivity
  rw [hnone]

/-- C5 (witness): target level 4 (the spec's own example) yields the
invalid-level text. -/
theorem validateOGActivity_invalid_level_witness :
    validateOGActivity "phoneme practice" 4 =
      ToolResponse.text
        ("❌ Invalid OG level: " ++ toString (4 : Int) ++ ". Must be 1-3.") :=
  validateOGActivity_invalid_level "phoneme practice" 4 (by decide)

/-- C7: for every phoneme and every modality list drawn from the four
modality names, the generated activity has a component sub-tree exactly for
each supplied modality, no sub-tree for an unsupplied one, and always the
fixed assessment sub-tree with its three mastery indicators and five-stage
practice-structure string. -/
theorem generatePhonemeActivity_components (phoneme : String)
    (modalities : List String) (_hm : ∀ m ∈ modalities, m ∈ ogModalities) :
    ((generatePhonemeActivity phoneme modalities).components.visual.isSome =
        modalities.contains "visual") ∧
      ((generatePhonemeActivity phoneme modalities).components.auditory.isSome =
        modalities.contains "auditory") ∧
      ((generatePhonemeActivity phoneme modalities).components.kinesthetic.isSome =
        modalities.contains "kinesthetic") ∧
      ((generatePhonemeActivity phoneme modalities).components.tactile.isSome =
        modalities.contains "tactile") ∧
      (generatePhonemeActivity phoneme modalities).components.assessment =
        { masteryIndicators :=
            ["Automatic recognition (< 2 seconds)",
             "Correct sound production",
             "Proper letter formation"],
          practiceStructure := "Present → Model → Practice → Assess → Celebrate" } := by
  refine ⟨?_, ?_, ?_, ?_, rfl⟩ <;>
    · dsimp only [generatePhonemeActivity]
      split <;> simp_all

/-- C7 (witness): instantiating the component theorem at the spec's own
example list ["visual", "auditory", "kinesthetic"]. -/
theorem generatePhonemeActivity_components_witness :
    ((generatePhonemeActivity "a" ["visual", "auditory", "kinesthetic"]).components.visual.isSome =
        (["visual", "auditory", "kinesthetic"] : List String).contains "visual") ∧
      ((generatePhonemeActivity "a" ["visual", "auditory", "kinesthetic"]).components.auditory.isSome =
        (["visual", "auditory", "kinesthetic"] : List String).contains "auditory") ∧
      ((generatePhonemeActivity "a" ["visual", "auditory", "kinesthetic"]).components.kinesthetic.isSome =
        (["visual", "auditory", "kinesthetic"] : List String).contains "kinesthetic") ∧
      ((generatePhonemeActivity "a" ["visual", "auditory", "kinesthetic"]).components.tactile.isSome =
        (["visual", "auditory", "kinesthetic"] : List String).contains "tactile") ∧
      (generatePhonemeActivity "a" ["visual", "auditory", "kinesthetic"]).components.assessment =
        { masteryIndicators :=
            ["Automatic recognition (< 2 seconds)",
             "Correct sound production",
             "Proper letter formation"],
          practiceStructure := "Present → Model → Practice → Assess → Celebrate" } :=
  generatePhonemeActivity_components "a" ["visual", "auditory", "kinesthetic"] (by decide)

/-- C8: the color-scheme lookup resolves each of the four intents to its
record (the switch default covers `primary`), the theme lookup resolves all
six theme tags, and the complexity map sends high to simple, medium to
moderate, and every other stress level (including the default low) to rich. -/
theorem lookup_totality :
    (getColorScheme "primary" =
          { bg := "bg-green-100", border := "border-green-200", text := "text-green-900" } ∧
        getColorScheme "secondary" =
          { bg := "bg-gray-100", border := "border-gray-200", text := "text-gray-900" } ∧
        getColorScheme "comfort" =
          { bg := "bg-pink-100", border := "border-pink-200", text := "text-pink-900" } ∧
        getColorScheme "celebration" =
          { bg := "bg-blue-100", border := "border-blue-200", text := "text-blue-900" }) ∧
      (∀ t ∈ ["dragons", "space", "magic", "animals", "adventure", "mystery"],
        (themeLookup t).isSome = true) ∧
      (complexityOf "high" = "simple" ∧ complexityOf "medium" = "moderate" ∧
        ∀ s : String, s ≠ "high" → s ≠ "medium" → complexityOf s = "rich") := by
  refine ⟨⟨rfl, rfl, rfl, rfl⟩, ?_, rfl, rfl, ?_⟩
  · intro t ht
    fin_cases ht <;> rfl
  · intro s h1 h2
    simp [complexityOf, h1, h2]

/-- C8 (witness): applying the totality theorem to the theme tag
`"mystery"` and the default stress level `"low"`. -/
theorem lookup_totality_witness :
    (themeLookup "mystery").isSome = true ∧ complexityOf "low" = "rich" :=
  ⟨lookup_totality.2.1 "mystery" (by decide),
    lookup_totality.2.2.2.2 "low" (by decide) (by decide)⟩

/-- C9: for a component type outside button/text/input/card the
component-selection switch falls through (no default branch), so the
generated markup is the empty string and the handler still returns the
normal single-text success response with the surrounding feature text. -/
theorem generateDyslexiaUI_unknown_component (componentType content intent : String)
    (h : componentType ∉ ["button", "text", "input", "card"]) :
    dyslexiaComponent componentType content (getColorScheme intent) = "" ∧
      generateDyslexiaUI componentType content intent =
        ToolResponse.text
          ("Generated dyslexia-friendly " ++ componentType ++ " component:\n\n" ++ "" ++
            "\n\nFeatures:\n- OpenDyslexic font with fallbacks\n- High contrast colors\n- Large touch targets (min 44px)\n- Generous spacing and padding\n- Proper ARIA labels\n- Focus indicators") := by
  simp only [List.mem_cons, List.not_mem_nil, or_false, not_or] at h
  obtain ⟨h1, h2, h3, h4⟩ := h
  have hc : dyslexiaComponent componentType content (getColorScheme intent) = "" := by
    unfold dyslexiaComponent
    rw [if_neg h1, if_neg h2, if_neg h3, if_neg h4]
  refine ⟨hc, ?_⟩
  unfold generateDyslexiaUI
  rw [hc]

/-- C9 (witness): the unsupported component type `"slider"`. -/
theorem generateDyslexiaUI_unknown_component_witness :
    dyslexiaComponent "slider" "Practice Sounds" (getColorScheme "primary") = "" ∧
      generateDyslexiaUI "slider" "Practice Sounds" "primary" =
        ToolResponse.text
          ("Generated dyslexia-friendly " ++ "slider" ++ " component:\n\n" ++ "" ++
            "\n\nFeatures:\n- OpenDyslexic font with fallbacks\n- High contrast colors\n- Large touch targets (min 44px)\n- Generous spacing and padding\n- Proper ARIA labels\n- Focus indicators") :=
  generateDyslexiaUI_unknown_component "slider" "Practice Sounds" "primary" (by decide)

/-- C10: `review_code_safety` matches its trigger substrings case-sensitively
against the raw code string: issues are reported exactly when the code
literally contains fail/error/wrong, timeout/time limit, or onClick without
aria-label; the code `"FAIL"` would match the failure check after
lower-casing, yet is reported trauma-safe with no issues. -/
theorem reviewCodeSafety_case_sensitive (code : String) :
    ((reviewCodeSafety code).issues ≠ [] ↔
        (jsIncludes code "fail" = true ∨ jsIncludes code "error" = true ∨
          jsIncludes code "wrong" = true ∨ jsIncludes code "timeout" = true ∨
          jsIncludes code "time limit" = true ∨
          (jsIncludes code "onClick" = true ∧ jsIncludes code "aria-label" = false))) ∧
      jsIncludes (jsToLower "FAIL") "fail" = true ∧
      (reviewCodeSafety "FAIL").issues = [] ∧ (reviewCodeSafety "FAIL").isSafe = true := by
  refine ⟨?_, by decide, by decide, by decide⟩
  dsimp only [reviewCodeSafety]
  cases h1 : jsIncludes code "fail" <;> cases h2 : jsIncludes code "error" <;>
    cases h3 : jsIncludes code "wrong" <;> cases h4 : jsIncludes code "timeout" <;>
    cases h5 : jsIncludes code "time limit" <;> cases h6 : jsIncludes code "onClick" <;>
    cases h7 : jsIncludes code "aria-label" <;> simp
